import Mathlib

/-!
Verification development for the wallet client's local security / session-lock
engine and credential storage.

Embedded source (TypeScript):
* `src/services/walletStorage.ts` — credential CRUD over the secure key-value
  store (`saveWallet`, `getWallet`, `deleteWallet`), the security slice
  (`isLocked`, `initializeSecurity`, `refreshLockState`, `setSecurityPassword`,
  `unlockWalletWithPassword`, `updateAutoLockDuration`, reducers).
* `src/unnamed/part_001` — the wallet slice (`fetchAccountBalance`,
  `deleteWalletData`, reducers).

Modelling conventions:
* The platform secure key-value store is a record with one optional field per
  persisted key; `none` models an absent key.
* Timestamps and durations are integers (epoch milliseconds / minutes).
* JavaScript truthiness is modelled explicitly where the source relies on it:
  `Boolean(s)` / `if (!s)` on a nullable string is false for `null` and for
  the empty string; `if (!n)` on a nullable number is true for `null` and for
  the number 0; `x || null` maps 0 to `null`.
* The SHA-256 digest (expo-crypto, an external collaborator) is an abstract
  function parameter `digest : String → String`.
* Storage writes are assumed to succeed; the `catch` branches of the source
  only fire on platform storage errors, which are external to this model.
-/

/-- The secure key-value store (expo-secure-store), one field per persisted
key: the five Credential Record keys (`wallet_address`, `wallet_seed`,
`wallet_public_key`, `wallet_mnemonic`, `wallet_private_key`) and the three
Security Record keys (password hash, auto-lock minutes, last-unlocked
timestamp). `none` models an absent key. -/
structure SecureStoreState where
  address : Option String
  seed : Option String
  publicKey : Option String
  mnemonic : Option String
  privateKey : Option String
  passwordHash : Option String
  autoLockMinutes : Option Int
  lastUnlockedAt : Option Int
deriving DecidableEq

/-- `WalletData` from walletStorage.ts: `address` plus four optional secret
fields. A field that is `undefined` in the source is `none` here. -/
structure WalletData where
  address : Option String
  seed : Option String
  publicKey : Option String
  mnemonic : Option String
  privateKey : Option String
deriving DecidableEq

/-- JavaScript truthiness of a nullable string: `null` and `""` are falsy. -/
def jsTruthyStr : Option String → Bool
  | none => false
  | some s => decide (s ≠ "")

/-- JavaScript truthiness of a nullable number: `null` and `0` are falsy. -/
def jsTruthyInt : Option Int → Bool
  | none => false
  | some n => decide (n ≠ 0)

/-- `payload.lastUnlockedAt || null` from the initialize/refresh fulfilled
reducers: a falsy number (0) collapses to `null`. -/
def jsOrNull : Option Int → Option Int
  | none => none
  | some n => if n = 0 then none else some n

/-- `saveWallet` (walletStorage.ts lines 21-42): each field is written iff it
is truthy (`if (walletData.address) await SecureStore.setItemAsync(...)`),
otherwise the stored value of that key is untouched. The five writes target
distinct keys, so the sequential source is modelled field-wise. -/
def saveWallet (w : WalletData) (s : SecureStoreState) : SecureStoreState :=
  { s with
    address := if jsTruthyStr w.address then w.address else s.address
    seed := if jsTruthyStr w.seed then w.seed else s.seed
    publicKey := if jsTruthyStr w.publicKey then w.publicKey else s.publicKey
    mnemonic := if jsTruthyStr w.mnemonic then w.mnemonic else s.mnemonic
    privateKey := if jsTruthyStr w.privateKey then w.privateKey else s.privateKey }

/-- `deleteWallet` (walletStorage.ts lines 147-158): deletes exactly the five
Credential Record keys. The three Security Record keys are not touched. -/
def deleteWallet (s : SecureStoreState) : SecureStoreState :=
  { s with
    address := none
    seed := none
    publicKey := none
    mnemonic := none
    privateKey := none }

/-- Modelled from the spec: `getWalletPasswordHash` is imported from
walletStorage but its definition is not under src/; the spec describes the
store as pass-through get per key (`passwordHash` digest string). -/
def getWalletPasswordHash (s : SecureStoreState) : Option String :=
  s.passwordHash

/-- Modelled from the spec: `setWalletPasswordHash`, pass-through set of the
`passwordHash` key. -/
def setWalletPasswordHash (h : String) (s : SecureStoreState) : SecureStoreState :=
  { s with passwordHash := some h }

/-- Modelled from the spec: `getAutoLockMinutes`, pass-through get of the
`autoLockMinutes` key (decimal string, parsed to a number). -/
def getAutoLockMinutes (s : SecureStoreState) : Option Int :=
  s.autoLockMinutes

/-- Modelled from the spec: `setAutoLockMinutes`, pass-through set of the
`autoLockMinutes` key. -/
def setAutoLockMinutes (m : Int) (s : SecureStoreState) : SecureStoreState :=
  { s with autoLockMinutes := some m }

/-- Modelled from the spec: `getLastUnlockedTimestamp`, pass-through get of
the `lastUnlockedAt` key (decimal string, epoch milliseconds). -/
def getLastUnlockedTimestamp (s : SecureStoreState) : Option Int :=
  s.lastUnlockedAt

/-- Modelled from the spec: `setLastUnlockedTimestamp`, pass-through set of
the `lastUnlockedAt` key. -/
def setLastUnlockedTimestamp (t : Int) (s : SecureStoreState) : SecureStoreState :=
  { s with lastUnlockedAt := some t }

/-- `isLocked` (walletStorage.ts lines 758-767).
Source:
  `if (!passwordSet) return false;`
  `if (!lastUnlockedAt) return true;`
  `const elapsed = Date.now() - lastUnlockedAt;`
  `return elapsed >= autoLockMinutes * 60 * 1000;`
JS note: `!lastUnlockedAt` is true both for `null` and for the number 0, so a
zero timestamp takes the `return true` branch. -/
def isLocked (passwordSet : Bool) (lastUnlockedAt : Option Int)
    (autoLockMinutes : Int) (now : Int) : Bool :=
  if !passwordSet then false
  else
    match lastUnlockedAt with
    | none => true
    | some l =>
      if l = 0 then true
      else decide (now - l ≥ autoLockMinutes * 60 * 1000)

/-- `DEFAULT_AUTO_LOCK_MINUTES` (walletStorage.ts line 738). -/
def DEFAULT_AUTO_LOCK_MINUTES : Int := 5

/-- Payload returned by the `initializeSecurity` / `refreshLockState` thunks. -/
structure SecurityPayload where
  passwordSet : Bool
  autoLockMinutes : Int
  lastUnlockedAt : Option Int
  locked : Bool
deriving DecidableEq

/-- `initializeSecurity` thunk (walletStorage.ts lines 769-786): reads the
three Security Record keys, derives `passwordSet = Boolean(passwordHash)`,
`autoLockMinutes = storedAutoLock ?? DEFAULT_AUTO_LOCK_MINUTES` (nullish
coalescing: only `null` falls back, 0 is kept), and computes `locked`. -/
def initializeSecurityThunk (s : SecureStoreState) (now : Int) : SecurityPayload :=
  let passwordSet := jsTruthyStr (getWalletPasswordHash s)
  let autoLockMinutes := (getAutoLockMinutes s).getD DEFAULT_AUTO_LOCK_MINUTES
  { passwordSet := passwordSet
    autoLockMinutes := autoLockMinutes
    lastUnlockedAt := getLastUnlockedTimestamp s
    locked := isLocked passwordSet (getLastUnlockedTimestamp s) autoLockMinutes now }

/-- `refreshLockState` thunk (walletStorage.ts lines 788-805): identical
computation to `initializeSecurity`. -/
def refreshLockStateThunk (s : SecureStoreState) (now : Int) : SecurityPayload :=
  let passwordSet := jsTruthyStr (getWalletPasswordHash s)
  let autoLockMinutes := (getAutoLockMinutes s).getD DEFAULT_AUTO_LOCK_MINUTES
  { passwordSet := passwordSet
    autoLockMinutes := autoLockMinutes
    lastUnlockedAt := getLastUnlockedTimestamp s
    locked := isLocked passwordSet (getLastUnlockedTimestamp s) autoLockMinutes now }

/-- `setSecurityPassword` thunk (walletStorage.ts lines 807-823): hashes the
password, persists the hash, persists `lastUnlockedAt = now`; the returned
payload carries `lastUnlockedAt`. -/
def setSecurityPasswordThunk (digest : String → String) (password : String)
    (now : Int) (s : SecureStoreState) : Int × SecureStoreState :=
  let hash := digest password
  let s1 := setWalletPasswordHash hash s
  let s2 := setLastUnlockedTimestamp now s1
  (now, s2)

/-- `unlockWalletWithPassword` thunk (walletStorage.ts lines 825-848).
Source:
  `const storedHash = await getWalletPasswordHash();`
  `if (!storedHash) return rejectWithValue('No password set. ...');`
  `const candidateHash = await Crypto.digestStringAsync(..., password);`
  `if (candidateHash !== storedHash) return rejectWithValue('Incorrect ...');`
  `await setLastUnlockedTimestamp(now); return { lastUnlockedAt: now };`
JS note: `!storedHash` is true for `null` and for the empty string. -/
def unlockWalletWithPasswordThunk (digest : String → String) (password : String)
    (now : Int) (s : SecureStoreState) : Except String (Int × SecureStoreState) :=
  match getWalletPasswordHash s with
  | none => Except.error "No password set. Please create one first."
  | some storedHash =>
    if storedHash = "" then Except.error "No password set. Please create one first."
    else if digest password ≠ storedHash then
      Except.error "Incorrect password. Please try again."
    else
      Except.ok (now, setLastUnlockedTimestamp now s)

/-- `updateAutoLockDuration` thunk (walletStorage.ts lines 850-860): persists
the new duration and returns it. -/
def updateAutoLockDurationThunk (minutes : Int) (s : SecureStoreState) :
    Int × SecureStoreState :=
  (minutes, setAutoLockMinutes minutes s)

/-- The security slice state (walletStorage.ts lines 740-756). -/
structure SecurityState where
  passwordSet : Bool
  locked : Bool
  autoLockMinutes : Int
  lastUnlockedAt : Option Int
  initializing : Bool
  error : Option String
deriving DecidableEq

/-- Initial security slice state. -/
def securityInitialState : SecurityState :=
  { passwordSet := false
    locked := false
    autoLockMinutes := DEFAULT_AUTO_LOCK_MINUTES
    lastUnlockedAt := none
    initializing := false
    error := none }

/-- `forceLock` reducer (walletStorage.ts lines 866-870): sets `locked` iff a
password is set; touches nothing else and performs no storage access. -/
def forceLock (st : SecurityState) : SecurityState :=
  if st.passwordSet then { st with locked := true } else st

/-- `initializeSecurity.fulfilled` reducer (walletStorage.ts lines 885-891):
copies the payload into the slice; `lastUnlockedAt` goes through
`action.payload.lastUnlockedAt || null`. -/
def initializeSecurityFulfilled (p : SecurityPayload) (st : SecurityState) :
    SecurityState :=
  { st with
    initializing := false
    passwordSet := p.passwordSet
    autoLockMinutes := p.autoLockMinutes
    lastUnlockedAt := jsOrNull p.lastUnlockedAt
    locked := p.locked }

/-- `refreshLockState.fulfilled` reducer (walletStorage.ts lines 896-901). -/
def refreshLockStateFulfilled (p : SecurityPayload) (st : SecurityState) :
    SecurityState :=
  { st with
    passwordSet := p.passwordSet
    autoLockMinutes := p.autoLockMinutes
    lastUnlockedAt := jsOrNull p.lastUnlockedAt
    locked := p.locked }

/-- Dispatch of `setSecurityPassword`: thunk (always fulfilled in this model;
the reject branch only fires on a platform storage error), then the `pending`
reducer (`error = null`) and the `fulfilled` reducer (walletStorage.ts lines
905-909: `passwordSet = true; locked = false; lastUnlockedAt = payload`). -/
def dispatchSetSecurityPassword (digest : String → String) (password : String)
    (now : Int) (s : SecureStoreState) (st : SecurityState) :
    SecureStoreState × SecurityState :=
  let r := setSecurityPasswordThunk digest password now s
  (r.2,
    { st with
      error := none
      passwordSet := true
      locked := false
      lastUnlockedAt := some r.1 })

/-- Dispatch of `unlockWalletWithPassword`: thunk, then `pending`
(`error = null`) and either `fulfilled` (walletStorage.ts lines 916-919:
`locked = false; lastUnlockedAt = payload`) or `rejected` (lines 920-923:
only `error` is written). -/
def dispatchUnlockWalletWithPassword (digest : String → String) (password : String)
    (now : Int) (s : SecureStoreState) (st : SecurityState) :
    SecureStoreState × SecurityState :=
  match unlockWalletWithPasswordThunk digest password now s with
  | Except.error msg => (s, { st with error := some msg })
  | Except.ok r =>
    (r.2,
      { st with
        error := none
        locked := false
        lastUnlockedAt := some r.1 })

/-- `updateAutoLockDuration.fulfilled` reducer (walletStorage.ts lines
924-927): stores the new minutes and recomputes `locked` from the unchanged
in-memory `passwordSet` and `lastUnlockedAt`. -/
def updateAutoLockDurationFulfilled (minutes : Int) (now : Int)
    (st : SecurityState) : SecurityState :=
  { st with
    autoLockMinutes := minutes
    locked := isLocked st.passwordSet st.lastUnlockedAt minutes now }

/-- Dispatch of `updateAutoLockDuration`: thunk persists the duration, then
the `fulfilled` reducer recomputes `locked`. -/
def dispatchUpdateAutoLockDuration (minutes : Int) (now : Int)
    (s : SecureStoreState) (st : SecurityState) :
    SecureStoreState × SecurityState :=
  let r := updateAutoLockDurationThunk minutes s
  (r.2, updateAutoLockDurationFulfilled r.1 now st)

/-- `deleteWalletData.fulfilled` reducer in the security slice
(walletStorage.ts lines 932-937): resets the four in-memory fields. -/
def deleteWalletDataFulfilledSecurity (st : SecurityState) : SecurityState :=
  { st with
    passwordSet := false
    locked := false
    autoLockMinutes := DEFAULT_AUTO_LOCK_MINUTES
    lastUnlockedAt := none }

/-- `Token` from the wallet slice (src/unnamed/part_001 lines 13-16). -/
structure Token where
  address : String
  balance : String
deriving DecidableEq

/-- The wallet slice state (src/unnamed/part_001 lines 18-34). The balance is
a JS number; the claims only compare it against concrete values, so it is
modelled as an integer. -/
structure WalletState where
  walletData : Option WalletData
  balance : Int
  tokens : List Token
  loading : Bool
  error : Option String
  refreshing : Bool
deriving DecidableEq

/-- The combined Redux root state: the wallet slice and the security slice. -/
structure RootState where
  wallet : WalletState
  security : SecurityState
deriving DecidableEq

/-- The `data` object of a balance API response: `totalBalance` plus an
optional `tokens` array. -/
structure BalanceData where
  totalBalance : Int
  tokens : Option (List Token)
deriving DecidableEq

/-- Outcome of the remote `getAccountBalance` call as observed by the thunk:
either the request threw, or it resolved to `{success, data}`. -/
inductive BalanceFetchOutcome where
  | threw : BalanceFetchOutcome
  | resp : Bool → Option BalanceData → BalanceFetchOutcome
deriving DecidableEq

/-- A fetch outcome is a failure when the call threw, `success` is false, or
`data` is absent (all three reach the `catch` via `throw new Error(...)`). -/
def isBalanceFetchFailure : BalanceFetchOutcome → Bool
  | BalanceFetchOutcome.threw => true
  | BalanceFetchOutcome.resp success data => !success || data.isNone

/-- Payload of `fetchAccountBalance`. -/
structure BalancePayload where
  balance : Int
  tokens : List Token
deriving DecidableEq

/-- `fetchAccountBalance` thunk (src/unnamed/part_001 lines 109-129): on
`success && data` it returns `{balance: totalBalance, tokens: tokens || []}`;
every other outcome lands in the `catch`, which does not reject but returns
`{balance: 0, tokens: []}`. The thunk therefore always fulfills. -/
def fetchAccountBalanceThunk : BalanceFetchOutcome → BalancePayload
  | BalanceFetchOutcome.resp true (some d) =>
    { balance := d.totalBalance, tokens := d.tokens.getD [] }
  | _ => { balance := 0, tokens := [] }

/-- `fetchAccountBalance.pending` reducer (src/unnamed/part_001 lines
234-239): sets `loading` unless refreshing, clears `error`. -/
def fetchAccountBalancePending (st : WalletState) : WalletState :=
  { st with
    loading := if st.refreshing then st.loading else true
    error := none }

/-- `fetchAccountBalance.fulfilled` reducer (src/unnamed/part_001 lines
240-245): clears the flags and overwrites `balance` and `tokens` with the
payload. -/
def fetchAccountBalanceFulfilled (p : BalancePayload) (st : WalletState) :
    WalletState :=
  { st with
    loading := false
    refreshing := false
    balance := p.balance
    tokens := p.tokens }

/-- Dispatch of `fetchAccountBalance` on the root state: pending, thunk,
fulfilled (the thunk never rejects). The security slice has no handler for
this action. -/
def dispatchFetchAccountBalance (o : BalanceFetchOutcome) (rs : RootState) :
    RootState :=
  { rs with
    wallet :=
      fetchAccountBalanceFulfilled (fetchAccountBalanceThunk o)
        (fetchAccountBalancePending rs.wallet) }

/-- `deleteWalletData` thunk (src/unnamed/part_001 lines 131-141): calls
`deleteWallet()` on storage and fulfills with `true`. -/
def deleteWalletDataThunk (s : SecureStoreState) : SecureStoreState :=
  deleteWallet s

/-- `deleteWalletData.fulfilled` reducer in the wallet slice
(src/unnamed/part_001 lines 257-262). -/
def deleteWalletDataFulfilledWallet (st : WalletState) : WalletState :=
  { st with
    loading := false
    walletData := none
    balance := 0
    tokens := [] }

/-- Dispatch of `deleteWalletData` on storage and the root state: the thunk
deletes the five credential keys, then both slices run their `fulfilled`
reducers (wallet slice resets wallet data; security slice resets its
in-memory fields). -/
def dispatchDeleteWalletData (s : SecureStoreState) (rs : RootState) :
    SecureStoreState × RootState :=
  (deleteWalletDataThunk s,
    { wallet := deleteWalletDataFulfilledWallet rs.wallet
      security := deleteWalletDataFulfilledSecurity rs.security })

/-- The lock derivation rule exactly as the spec states it:
`locked = passwordSet AND (lastUnlockedAt is absent OR (now - lastUnlockedAt)
>= autoLockMinutes * 60000)`. -/
def lockedSpecFormula (passwordSet : Bool) (lastUnlockedAt : Option Int)
    (autoLockMinutes : Int) (now : Int) : Bool :=
  passwordSet &&
    (match lastUnlockedAt with
     | none => true
     | some l => decide (now - l ≥ autoLockMinutes * 60000))

/-- The lock derivation rule amended for the source's JS truthiness: a stored
timestamp of exactly 0 is treated like an absent one. -/
def lockedSpecFormulaAmended (passwordSet : Bool) (lastUnlockedAt : Option Int)
    (autoLockMinutes : Int) (now : Int) : Bool :=
  passwordSet &&
    (match lastUnlockedAt with
     | none => true
     | some l => decide (l = 0) || decide (now - l ≥ autoLockMinutes * 60000))

/-- Concrete store used for claim C1: a wallet with all five credential keys
and all three security keys populated. -/
def c1Store : SecureStoreState :=
  { address := some "addr"
    seed := some "sd"
    publicKey := some "pk"
    mnemonic := some "mn"
    privateKey := some "sk"
    passwordHash := some "h"
    autoLockMinutes := some 5
    lastUnlockedAt := some 1000 }

/-- Concrete root state used for claim C1. -/
def c1Root : RootState :=
  { wallet :=
      { walletData :=
          some { address := some "addr", seed := some "sd", publicKey := some "pk"
                 mnemonic := some "mn", privateKey := some "sk" }
        balance := 10
        tokens := []
        loading := false
        error := none
        refreshing := false }
    security :=
      { passwordSet := true
        locked := false
        autoLockMinutes := 5
        lastUnlockedAt := some 1000
        initializing := false
        error := none } }

/-- Concrete root state used for claim C2: a wallet that previously fetched a
nonzero balance and a nonempty token list. -/
def c2Root : RootState :=
  { wallet :=
      { walletData := none
        balance := 42
        tokens := [{ address := "tokenA", balance := "7" }]
        loading := false
        error := none
        refreshing := false }
    security :=
      { passwordSet := true
        locked := true
        autoLockMinutes := 5
        lastUnlockedAt := some 1000
        initializing := false
        error := none } }

/-- Concrete store used for claim C4: stored hash of the password "correct"
under the digest `fun p => "H" ++ p`. -/
def c4Store : SecureStoreState :=
  { address := some "addr"
    seed := none
    publicKey := none
    mnemonic := none
    privateKey := none
    passwordHash := some "Hcorrect"
    autoLockMinutes := some 5
    lastUnlockedAt := some 1000 }

/-- Concrete locked slice state used for claim C4. -/
def c4State : SecurityState :=
  { passwordSet := true
    locked := true
    autoLockMinutes := 5
    lastUnlockedAt := some 1000
    initializing := false
    error := none }

/-- Composition for claim C5: dispatch setPassword, then dispatch unlock with
(possibly another) password against the resulting storage and slice. -/
def setPasswordThenUnlock (digest : String → String) (pw1 pw2 : String)
    (t1 t2 : Int) (s : SecureStoreState) (st : SecurityState) :
    SecureStoreState × SecurityState :=
  let r := dispatchSetSecurityPassword digest pw1 t1 s st
  dispatchUnlockWalletWithPassword digest pw2 t2 r.1 r.2

/-- Concrete store used for claim C5. -/
def c5Store : SecureStoreState :=
  { address := some "addr"
    seed := none
    publicKey := none
    mnemonic := none
    privateKey := none
    passwordHash := none
    autoLockMinutes := none
    lastUnlockedAt := none }

/-- Concrete slice state used for claim C5. -/
def c5State : SecurityState :=
  { passwordSet := false
    locked := false
    autoLockMinutes := 5
    lastUnlockedAt := none
    initializing := false
    error := none }

/-- Concrete store used for claim C6. -/
def c6Store : SecureStoreState :=
  { address := some "addr"
    seed := none
    publicKey := none
    mnemonic := none
    privateKey := none
    passwordHash := some "h"
    autoLockMinutes := some 5
    lastUnlockedAt := some 1000 }

/-- Concrete slice state used for claim C6: unlocked 60 seconds ago under a
5-minute auto-lock. -/
def c6State : SecurityState :=
  { passwordSet := true
    locked := false
    autoLockMinutes := 5
    lastUnlockedAt := some 1000
    initializing := false
    error := none }

/-- Concrete store used for claim C7: every key populated. -/
def c7Store : SecureStoreState :=
  { address := some "oldaddr"
    seed := some "oldseed"
    publicKey := some "oldpk"
    mnemonic := some "oldmn"
    privateKey := some "oldsk"
    passwordHash := some "h"
    autoLockMinutes := some 5
    lastUnlockedAt := some 1000 }

/-- Concrete store used for the C8 counterexample. -/
def c8AStore : SecureStoreState :=
  { address := some "addr"
    seed := none
    publicKey := none
    mnemonic := none
    privateKey := none
    passwordHash := some "h"
    autoLockMinutes := some 1
    lastUnlockedAt := some 0 }

/-- Concrete slice state used for the C8 counterexample: password set, locked
under the old 1-minute duration, last-unlocked timestamp exactly 0. -/
def c8AState : SecurityState :=
  { passwordSet := true
    locked := true
    autoLockMinutes := 1
    lastUnlockedAt := some 0
    initializing := false
    error := none }

/-- Concrete store used for the C8 witness. -/
def c8WStore : SecureStoreState :=
  { address := some "addr"
    seed := none
    publicKey := none
    mnemonic := none
    privateKey := none
    passwordHash := some "h"
    autoLockMinutes := some 1
    lastUnlockedAt := some 1000 }

/-- Concrete slice state used for the C8 witness: locked under a 1-minute
duration with 60 seconds elapsed since the unlock at t = 1000. -/
def c8WState : SecurityState :=
  { passwordSet := true
    locked := true
    autoLockMinutes := 1
    lastUnlockedAt := some 1000
    initializing := false
    error := none }

/-- Dispatch of the `forceLock` action: a plain reducer, so it has no access
to storage; the store component is returned unchanged by construction, which
is exactly what the source reducer (no storage call in its body) does. -/
def dispatchForceLock (s : SecureStoreState) (st : SecurityState) :
    SecureStoreState × SecurityState :=
  (s, forceLock st)

/-- Concrete store used for the C9 counterexample: persisted last-unlocked
timestamp exactly 0. -/
def c9AStore : SecureStoreState :=
  { address := some "addr"
    seed := none
    publicKey := none
    mnemonic := none
    privateKey := none
    passwordHash := some "h"
    autoLockMinutes := some 5
    lastUnlockedAt := some 0 }

/-- Concrete slice state used for the C9 counterexample. -/
def c9AState : SecurityState :=
  { passwordSet := true
    locked := false
    autoLockMinutes := 5
    lastUnlockedAt := some 0
    initializing := false
    error := none }

/-- Concrete store used for the C9 witness: unlocked at t = 1000 with a
5-minute window. -/
def c9WStore : SecureStoreState :=
  { address := some "addr"
    seed := none
    publicKey := none
    mnemonic := none
    privateKey := none
    passwordHash := some "h"
    autoLockMinutes := some 5
    lastUnlockedAt := some 1000 }

/-- Concrete slice state used for the C9 witness. -/
def c9WState : SecurityState :=
  { passwordSet := true
    locked := false
    autoLockMinutes := 5
    lastUnlockedAt := some 1000
    initializing := false
    error := none }

/-- C1: the claim says a successful wallet delete removes the five Credential
Record keys AND the three Security Record keys from storage, so a subsequent
initialize reports passwordSet = false. Evaluating the code at a fully
populated store: the five credential keys are removed, but the password hash,
auto-lock minutes and last-unlocked timestamp remain in storage, a subsequent
initialize reports passwordSet = true, and the in-memory security slice
(reset to passwordSet = false by the delete reducer) contradicts what the
next refresh recomputes from storage. -/
theorem c1_delete_leaves_security_record :
    (dispatchDeleteWalletData c1Store c1Root).1.address = none ∧
    (dispatchDeleteWalletData c1Store c1Root).1.seed = none ∧
    (dispatchDeleteWalletData c1Store c1Root).1.publicKey = none ∧
    (dispatchDeleteWalletData c1Store c1Root).1.mnemonic = none ∧
    (dispatchDeleteWalletData c1Store c1Root).1.privateKey = none ∧
    (dispatchDeleteWalletData c1Store c1Root).1.passwordHash = some "h" ∧
    (dispatchDeleteWalletData c1Store c1Root).1.autoLockMinutes = some 5 ∧
    (dispatchDeleteWalletData c1Store c1Root).1.lastUnlockedAt = some 1000 ∧
    (initializeSecurityThunk (dispatchDeleteWalletData c1Store c1Root).1 2000).passwordSet = true ∧
    (dispatchDeleteWalletData c1Store c1Root).2.security.passwordSet = false ∧
    (refreshLockStateThunk (dispatchDeleteWalletData c1Store c1Root).1 2000).passwordSet = true := by
  decide

/-- C2 counterexample: the claim says a failed balance fetch keeps the last
known balance unchanged; at a state with balance 42 and a thrown remote call
the balance changes (it is reset to 0), so the claim is false as stated. -/
theorem c2_counterexample :
    (dispatchFetchAccountBalance BalanceFetchOutcome.threw c2Root).wallet.balance ≠
      c2Root.wallet.balance := by
  decide

/-- C2 (amended): when the balance fetch fails (throws, success = false, or
data absent), the thunk fulfills with balance 0 and an empty token list, so
the wallet slice balance is reset to 0 and the token list cleared; no error
is surfaced (error ends as null) and the security slice is untouched (the
wallet is neither locked nor unlocked as a side effect). -/
theorem c2_balance_fetch_failure_resets_balance (o : BalanceFetchOutcome)
    (rs : RootState) (hfail : isBalanceFetchFailure o = true) :
    (dispatchFetchAccountBalance o rs).wallet.balance = 0 ∧
    (dispatchFetchAccountBalance o rs).wallet.tokens = [] ∧
    (dispatchFetchAccountBalance o rs).wallet.error = none ∧
    (dispatchFetchAccountBalance o rs).security = rs.security := by
  cases o with
  | threw =>
    simp [dispatchFetchAccountBalance, fetchAccountBalanceThunk,
      fetchAccountBalanceFulfilled, fetchAccountBalancePending]
  | resp success data =>
    cases success with
    | false =>
      cases data <;>
        simp [dispatchFetchAccountBalance, fetchAccountBalanceThunk,
          fetchAccountBalanceFulfilled, fetchAccountBalancePending]
    | true =>
      cases data with
      | none =>
        simp [dispatchFetchAccountBalance, fetchAccountBalanceThunk,
          fetchAccountBalanceFulfilled, fetchAccountBalancePending]
      | some d => simp [isBalanceFetchFailure] at hfail

/-- C2 witness: the amended theorem applied at the concrete failing fetch. -/
theorem c2_balance_fetch_failure_resets_balance_witness :
    (dispatchFetchAccountBalance BalanceFetchOutcome.threw c2Root).wallet.balance = 0 ∧
    (dispatchFetchAccountBalance BalanceFetchOutcome.threw c2Root).wallet.tokens = [] ∧
    (dispatchFetchAccountBalance BalanceFetchOutcome.threw c2Root).wallet.error = none ∧
    (dispatchFetchAccountBalance BalanceFetchOutcome.threw c2Root).security = c2Root.security :=
  c2_balance_fetch_failure_resets_balance BalanceFetchOutcome.threw c2Root (by decide)

/-- C3 counterexample: the claim says the derived lock state equals
`passwordSet AND (lastUnlockedAt absent OR now - lastUnlockedAt >=
autoLockMinutes * 60000)` for every input; at passwordSet = true,
lastUnlockedAt = 0, autoLockMinutes = 5, now = 0 the formula yields false
(0 - 0 < 300000) but the code yields true (JS `!lastUnlockedAt` treats the
number 0 as absent). -/
theorem c3_counterexample :
    isLocked true (some 0) 5 0 ≠ lockedSpecFormula true (some 0) 5 0 := by
  decide

/-- C3 (amended): the derived lock state equals `passwordSet AND
(lastUnlockedAt absent-or-zero OR now - lastUnlockedAt >= autoLockMinutes *
60000)`; in particular, when no password is set the computed state is never
locked, for every timestamp and duration. -/
theorem c3_isLocked_matches_amended_formula (p : Bool) (l : Option Int)
    (m now : Int) :
    isLocked p l m now = lockedSpecFormulaAmended p l m now ∧
    isLocked false l m now = false := by
  have hmul : m * 60 * 1000 = m * 60000 := by ring
  constructor
  · cases p with
    | false => cases l <;> simp [isLocked, lockedSpecFormulaAmended]
    | true =>
      cases l with
      | none => simp [isLocked, lockedSpecFormulaAmended]
      | some v =>
        by_cases h0 : v = 0 <;>
          simp [isLocked, lockedSpecFormulaAmended, h0, hmul]
  · simp [isLocked]

/-- C4: unlock with no password hash in storage fails with the no-password
error; unlock against a stored (nonempty) hash with a non-matching digest
fails with the incorrect-password error; the two messages are distinct; in
both failure cases the storage and the slice are unchanged except for the
error field, so the state remains Locked and lastUnlockedAt is unchanged. -/
theorem c4_unlock_failure_modes (digest : String → String) (pw : String)
    (now : Int) (s : SecureStoreState) (st : SecurityState) :
    ("No password set. Please create one first." ≠
      "Incorrect password. Please try again.") ∧
    (s.passwordHash = none →
      dispatchUnlockWalletWithPassword digest pw now s st =
        (s, { st with error := some "No password set. Please create one first." })) ∧
    (∀ hsh : String, s.passwordHash = some hsh → hsh ≠ "" → digest pw ≠ hsh →
      dispatchUnlockWalletWithPassword digest pw now s st =
        (s, { st with error := some "Incorrect password. Please try again." })) := by
  refine ⟨by decide, ?_, ?_⟩
  · intro hnone
    simp [dispatchUnlockWalletWithPassword, unlockWalletWithPasswordThunk,
      getWalletPasswordHash, hnone]
  · intro hsh hsome hne hdig
    simp [dispatchUnlockWalletWithPassword, unlockWalletWithPasswordThunk,
      getWalletPasswordHash, hsome, hne, hdig]

/-- C4 witness: unlock("wrong") against the stored hash of "correct" fails
with the incorrect-password message and leaves everything but the error
field unchanged. -/
theorem c4_unlock_failure_modes_witness :
    dispatchUnlockWalletWithPassword (fun p => String.append "H" p) "wrong" 2000
        c4Store c4State =
      (c4Store, { c4State with error := some "Incorrect password. Please try again." }) :=
  (c4_unlock_failure_modes (fun p => String.append "H" p) "wrong" 2000 c4Store
    c4State).2.2 "Hcorrect" rfl (by decide) (by decide)

/-- C5: after setPassword(p) succeeds, unlock(p) succeeds: the recomputed
digest of p matches the stored hash (the stored hash is exactly digest p),
the unlock persists lastUnlockedAt = t2 to storage, and the slice ends
Unlocked (locked = false, lastUnlockedAt = t2, no error). The hypothesis
states that the digest output is nonempty, which holds for the real SHA-256
hex digest. -/
theorem c5_set_then_unlock_roundtrip (digest : String → String) (pw : String)
    (t1 t2 : Int) (s : SecureStoreState) (st : SecurityState)
    (hd : digest pw ≠ "") :
    (dispatchSetSecurityPassword digest pw t1 s st).1.passwordHash =
      some (digest pw) ∧
    (setPasswordThenUnlock digest pw pw t1 t2 s st).2.locked = false ∧
    (setPasswordThenUnlock digest pw pw t1 t2 s st).2.lastUnlockedAt = some t2 ∧
    (setPasswordThenUnlock digest pw pw t1 t2 s st).2.error = none ∧
    (setPasswordThenUnlock digest pw pw t1 t2 s st).1.lastUnlockedAt = some t2 := by
  refine ⟨rfl, ?_⟩
  simp [setPasswordThenUnlock, dispatchSetSecurityPassword,
    setSecurityPasswordThunk, dispatchUnlockWalletWithPassword,
    unlockWalletWithPasswordThunk, getWalletPasswordHash,
    setWalletPasswordHash, setLastUnlockedTimestamp, hd]

/-- C5 witness: the round trip at a concrete digest, password and times. -/
theorem c5_set_then_unlock_roundtrip_witness :
    (dispatchSetSecurityPassword (fun p => String.append "H" p) "abc" 3 c5Store
        c5State).1.passwordHash = some ((fun p => String.append "H" p) "abc") ∧
    (setPasswordThenUnlock (fun p => String.append "H" p) "abc" "abc" 3 9 c5Store
        c5State).2.locked = false ∧
    (setPasswordThenUnlock (fun p => String.append "H" p) "abc" "abc" 3 9 c5Store
        c5State).2.lastUnlockedAt = some 9 ∧
    (setPasswordThenUnlock (fun p => String.append "H" p) "abc" "abc" 3 9 c5Store
        c5State).2.error = none ∧
    (setPasswordThenUnlock (fun p => String.append "H" p) "abc" "abc" 3 9 c5Store
        c5State).1.lastUnlockedAt = some 9 :=
  c5_set_then_unlock_roundtrip (fun p => String.append "H" p) "abc" 3 9 c5Store
    c5State (by decide)

/-- C6: a successful updateAutoLockDuration(m) persists the new duration and
immediately recomputes locked against the unchanged lastUnlockedAt at the
same instant: whenever a password is set and the elapsed time since last
unlock is at least m * 60000, the slice flips to Locked with lastUnlockedAt
untouched. -/
theorem c6_shorter_duration_relocks (m now l : Int) (s : SecureStoreState)
    (st : SecurityState) (hps : st.passwordSet = true)
    (hl : st.lastUnlockedAt = some l)
    (helapsed : now - l ≥ m * 60 * 1000) :
    (dispatchUpdateAutoLockDuration m now s st).2.locked = true ∧
    (dispatchUpdateAutoLockDuration m now s st).2.autoLockMinutes = m ∧
    (dispatchUpdateAutoLockDuration m now s st).2.lastUnlockedAt =
      st.lastUnlockedAt ∧
    (dispatchUpdateAutoLockDuration m now s st).1.autoLockMinutes = some m := by
  refine ⟨?_, rfl, rfl, rfl⟩
  by_cases h0 : l = 0 <;>
    simp [dispatchUpdateAutoLockDuration, updateAutoLockDurationFulfilled,
      updateAutoLockDurationThunk, isLocked, hps, hl, h0, helapsed]

/-- C6 witness: shortening the duration to 1 minute with 60 seconds elapsed
flips the state to Locked at once. -/
theorem c6_shorter_duration_relocks_witness :
    (dispatchUpdateAutoLockDuration 1 61000 c6Store c6State).2.locked = true ∧
    (dispatchUpdateAutoLockDuration 1 61000 c6Store c6State).2.autoLockMinutes = 1 ∧
    (dispatchUpdateAutoLockDuration 1 61000 c6Store c6State).2.lastUnlockedAt =
      c6State.lastUnlockedAt ∧
    (dispatchUpdateAutoLockDuration 1 61000 c6Store c6State).1.autoLockMinutes =
      some 1 :=
  c6_shorter_duration_relocks 1 61000 1000 c6Store c6State rfl rfl (by decide)

/-- C7: saveWallet writes only the fields present in the input record; every
field absent from the input keeps its previously stored value, and the three
security keys are never touched. -/
theorem c7_saveWallet_partial_update (w : WalletData) (s : SecureStoreState) :
    (w.address = none → (saveWallet w s).address = s.address) ∧
    (w.seed = none → (saveWallet w s).seed = s.seed) ∧
    (w.publicKey = none → (saveWallet w s).publicKey = s.publicKey) ∧
    (w.mnemonic = none → (saveWallet w s).mnemonic = s.mnemonic) ∧
    (w.privateKey = none → (saveWallet w s).privateKey = s.privateKey) ∧
    (saveWallet w s).passwordHash = s.passwordHash ∧
    (saveWallet w s).autoLockMinutes = s.autoLockMinutes ∧
    (saveWallet w s).lastUnlockedAt = s.lastUnlockedAt := by
  refine ⟨?_, ?_, ?_, ?_, ?_, rfl, rfl, rfl⟩ <;>
    intro h <;> simp [saveWallet, jsTruthyStr, h]

/-- C7 witness: saving an address-only record leaves the stored seed (and the
security keys) untouched. -/
theorem c7_saveWallet_partial_update_witness :
    (saveWallet
        { address := some "addr2", seed := none, publicKey := none
          mnemonic := none, privateKey := none } c7Store).seed = some "oldseed" ∧
    (saveWallet
        { address := some "addr2", seed := none, publicKey := none
          mnemonic := none, privateKey := none } c7Store).passwordHash = some "h" := by
  have h :=
    c7_saveWallet_partial_update
      { address := some "addr2", seed := none, publicKey := none
        mnemonic := none, privateKey := none } c7Store
  exact ⟨(h.2.1 rfl).trans rfl, h.2.2.2.2.2.1.trans rfl⟩

/-- C8 counterexample: the claim says every locked state (with
now - lastUnlockedAt >= old duration * 60000) flips to locked = false when
the new duration m satisfies m * 60000 > now - lastUnlockedAt; at
lastUnlockedAt = 0, now = 60000, old duration 1, new duration 2 all those
hypotheses hold, yet the recomputed lock state stays true because JS
`!lastUnlockedAt` treats the timestamp 0 as absent. -/
theorem c8_counterexample :
    c8AState.passwordSet = true ∧
    c8AState.locked = true ∧
    c8AState.lastUnlockedAt = some 0 ∧
    (60000 : Int) - 0 ≥ c8AState.autoLockMinutes * 60 * 1000 ∧
    (2 : Int) * 60 * 1000 > (60000 : Int) - 0 ∧
    (dispatchUpdateAutoLockDuration 2 60000 c8AStore c8AState).2.locked ≠ false := by
  decide

/-- C8 (amended): for every state with a password set, a present nonzero
lastUnlockedAt, and locked because now - lastUnlockedAt >= old duration *
60000, a successful updateAutoLockDuration(m) with m * 60000 >
now - lastUnlockedAt sets locked = false — lengthening the auto-lock
duration unlocks a locked wallet without any password entry. -/
theorem c8_longer_duration_unlocks (m now l : Int) (s : SecureStoreState)
    (st : SecurityState) (hps : st.passwordSet = true)
    (hl : st.lastUnlockedAt = some l) (hl0 : l ≠ 0)
    (hwhy : now - l ≥ st.autoLockMinutes * 60 * 1000)
    (hnew : m * 60 * 1000 > now - l) :
    (dispatchUpdateAutoLockDuration m now s st).2.locked = false := by
  have hlt : ¬ (now - l ≥ m * 60 * 1000) := not_le.mpr hnew
  simp [dispatchUpdateAutoLockDuration, updateAutoLockDurationFulfilled,
    updateAutoLockDurationThunk, isLocked, hps, hl, hl0, hlt]

/-- C8 witness: lengthening the duration to 2 minutes with only 60 seconds
elapsed recomputes locked = false. -/
theorem c8_longer_duration_unlocks_witness :
    (dispatchUpdateAutoLockDuration 2 61000 c8WStore c8WState).2.locked = false :=
  c8_longer_duration_unlocks 2 61000 1000 c8WStore c8WState rfl rfl (by decide)
    (by decide) (by decide)

/-- C9 counterexample: the claim says that whenever now - lastUnlockedAt <
autoLockMinutes * 60000, a refreshLockState after forceLock recomputes
locked = false; at a persisted timestamp of 0 and now = 1 the elapsed time
is far below the 5-minute window, yet the refresh recomputes locked = true
(JS `!lastUnlockedAt` treats the number 0 as absent), so the manual lock is
not undone. -/
theorem c9_counterexample :
    c9AStore.lastUnlockedAt = some 0 ∧
    (1 : Int) - 0 <
      (c9AStore.autoLockMinutes.getD DEFAULT_AUTO_LOCK_MINUTES) * 60 * 1000 ∧
    (refreshLockStateFulfilled (refreshLockStateThunk c9AStore 1)
        (dispatchForceLock c9AStore c9AState).2).locked ≠ false := by
  decide

/-- C9 (amended): forceLock mutates only the in-memory locked flag and writes
nothing to storage; consequently, for every store whose persisted
lastUnlockedAt is present and nonzero with now - lastUnlockedAt <
autoLockMinutes * 60000, a refreshLockState performed after forceLock
recomputes locked = false from the persisted values, undoing the manual lock
without any unlock call. -/
theorem c9_forceLock_not_persisted (now l : Int) (s : SecureStoreState)
    (st : SecurityState) (hl : s.lastUnlockedAt = some l) (hl0 : l ≠ 0)
    (hfresh : now - l <
      (s.autoLockMinutes.getD DEFAULT_AUTO_LOCK_MINUTES) * 60 * 1000) :
    (dispatchForceLock s st).1 = s ∧
    (dispatchForceLock s st).2.passwordSet = st.passwordSet ∧
    (dispatchForceLock s st).2.autoLockMinutes = st.autoLockMinutes ∧
    (dispatchForceLock s st).2.lastUnlockedAt = st.lastUnlockedAt ∧
    (dispatchForceLock s st).2.initializing = st.initializing ∧
    (dispatchForceLock s st).2.error = st.error ∧
    (refreshLockStateFulfilled (refreshLockStateThunk s now)
        (dispatchForceLock s st).2).locked = false := by
  have hlt : ¬ (now - l ≥
      (s.autoLockMinutes.getD DEFAULT_AUTO_LOCK_MINUTES) * 60 * 1000) :=
    not_le.mpr hfresh
  refine ⟨rfl, ?_, ?_, ?_, ?_, ?_, ?_⟩
  · by_cases hp : st.passwordSet <;> simp [dispatchForceLock, forceLock, hp]
  · by_cases hp : st.passwordSet <;> simp [dispatchForceLock, forceLock, hp]
  · by_cases hp : st.passwordSet <;> simp [dispatchForceLock, forceLock, hp]
  · by_cases hp : st.passwordSet <;> simp [dispatchForceLock, forceLock, hp]
  · by_cases hp : st.passwordSet <;> simp [dispatchForceLock, forceLock, hp]
  · cases hpw : jsTruthyStr s.passwordHash <;>
      simp [refreshLockStateFulfilled, refreshLockStateThunk,
        getWalletPasswordHash, getAutoLockMinutes, getLastUnlockedTimestamp,
        isLocked, hpw, hl, hl0, hlt]

/-- C9 witness: at now = 1500 (500 ms elapsed, window 300000 ms) the refresh
after forceLock recomputes locked = false from the persisted values. -/
theorem c9_forceLock_not_persisted_witness :
    (dispatchForceLock c9WStore c9WState).1 = c9WStore ∧
    (dispatchForceLock c9WStore c9WState).2.passwordSet = c9WState.passwordSet ∧
    (dispatchForceLock c9WStore c9WState).2.autoLockMinutes =
      c9WState.autoLockMinutes ∧
    (dispatchForceLock c9WStore c9WState).2.lastUnlockedAt =
      c9WState.lastUnlockedAt ∧
    (dispatchForceLock c9WStore c9WState).2.initializing =
      c9WState.initializing ∧
    (dispatchForceLock c9WStore c9WState).2.error = c9WState.error ∧
    (refreshLockStateFulfilled (refreshLockStateThunk c9WStore 1500)
        (dispatchForceLock c9WStore c9WState).2).locked = false :=
  c9_forceLock_not_persisted 1500 1000 c9WStore c9WState rfl (by decide)
    (by decide)

/-- C10: setSecurityPassword has no precondition on the current lock state:
for every slice state (including a locked one) and every stored hash it
overwrites the persisted hash with the digest of the new password without
verifying the old one, persists lastUnlockedAt = now, and the fulfilled
reducer unconditionally sets passwordSet = true, locked = false and
lastUnlockedAt = now. -/
theorem c10_setPassword_unconditional (digest : String → String) (pw : String)
    (now : Int) (s : SecureStoreState) (st : SecurityState) :
    (dispatchSetSecurityPassword digest pw now s st).1.passwordHash =
      some (digest pw) ∧
    (dispatchSetSecurityPassword digest pw now s st).1.lastUnlockedAt =
      some now ∧
    (dispatchSetSecurityPassword digest pw now s st).2.passwordSet = true ∧
    (dispatchSetSecurityPassword digest pw now s st).2.locked = false ∧
    (dispatchSetSecurityPassword digest pw now s st).2.lastUnlockedAt =
      some now :=
  ⟨rfl, rfl, rfl, rfl, rfl⟩
